import Mathlib

/-!
Verification of the QuadkernWeb client-side rate limiter
(`src/security/rateLimiter.ts`, class `QuadKernRateLimiter`) against its
natural-language specification.

Shallow embedding conventions:
* Times are natural-number milliseconds.  `Date.now()` becomes an explicit
  `now` argument threaded through each operation.
* The client key produced by `getClientIP`/`generateFingerprint` becomes an
  explicit `key` argument of the limiter operations; the fingerprint
  computation itself is embedded separately (`generateFingerprint`).
* `Map<string, ClientInfo>` and the blocked set are association lists with
  JS `Map.set` replace-in-place semantics (`setA`).
* `blockClient` arms a `setTimeout` that removes the key from `blockedIPs`
  after `blockDurationMs`.  The set together with its pending timers is
  embedded as an association list `blockedUntil : List (String × Nat)`
  mapping a key to its unblock deadline; membership of the JS set at time
  `now` is `isBlockedAt`, i.e. a deadline is stored and `now` is before it.
* Methods that mutate `this` return a pair (result, new state); the state
  component of a read-only method is the unchanged input state.
-/

set_option maxRecDepth 8192

namespace QuadkernWeb

/-- `RateLimitConfig` from the source (maxRequests, windowMs,
blockDurationMs, enableLogging). -/
structure RateLimitConfig where
  maxRequests : Nat
  windowMs : Nat
  blockDurationMs : Nat
  enableLogging : Bool
  deriving DecidableEq, Repr

/-- `ClientInfo` from the source.  The `blocked` and `blockUntil` fields are
written once at creation and never read or updated by the source, exactly as
in the TypeScript class. -/
structure ClientInfo where
  ip : String
  requests : List Nat
  blocked : Bool
  blockUntil : Nat
  deriving DecidableEq, Repr

/-- The mutable fields of a `QuadKernRateLimiter` instance. -/
structure LimiterState where
  config : RateLimitConfig
  clients : List (String × ClientInfo)
  blockedUntil : List (String × Nat)
  suspiciousIPs : List String
  deriving DecidableEq, Repr

/-- Association-list lookup (JS `Map.get` / key membership). -/
def lookupA {α : Type} (m : List (String × α)) (k : String) : Option α :=
  match m with
  | [] => none
  | (k', v) :: rest => if k' = k then some v else lookupA rest k

/-- Association-list insert-or-replace (JS `Map.set`). -/
def setA {α : Type} (m : List (String × α)) (k : String) (v : α) :
    List (String × α) :=
  match m with
  | [] => [(k, v)]
  | (k', v') :: rest =>
    if k' = k then (k, v) :: rest else (k', v') :: setA rest k v

/-- Membership of `key` in `blockedIPs` at time `now`: a block deadline is
recorded and its `setTimeout` removal has not yet fired.  Embeds
`this.blockedIPs.has(key)` given the pending timer armed by `blockClient`. -/
def isBlockedAt (s : LimiterState) (key : String) (now : Nat) : Bool :=
  match lookupA s.blockedUntil key with
  | some d => now < d
  | none => false

/-- JS `Set.add`: append the element when absent. -/
def addSuspicious (key : String) (l : List String) : List String :=
  if key ∈ l then l else l.concat key

/-- `blockClient(ip, now)`: add `ip` to `blockedIPs` (with the auto-unblock
timer, i.e. deadline `now + blockDurationMs`) and to `suspiciousIPs`. -/
def blockClient (s : LimiterState) (ip : String) (now : Nat) : LimiterState :=
  { s with
    blockedUntil := setA s.blockedUntil ip (now + s.config.blockDurationMs),
    suspiciousIPs := addSuspicious ip s.suspiciousIPs }

/-- The fresh `ClientInfo` created on first sight of a key. -/
def freshClient (key : String) : ClientInfo :=
  { ip := key, requests := [], blocked := false, blockUntil := 0 }

/-- `checkRateLimit()` at time `now` for client key `key`.  Mirrors the
source: early-return `false` when the key is in `blockedIPs`; otherwise get
or lazily create the client record, prune timestamps with
`now - t < windowMs`, then either block (count at or above `maxRequests`)
or append `now` and admit. -/
def checkRateLimit (s : LimiterState) (key : String) (now : Nat) :
    Bool × LimiterState :=
  if isBlockedAt s key now then (false, s)
  else
    let client := (lookupA s.clients key).getD (freshClient key)
    let pruned := client.requests.filter (fun t => now - t < s.config.windowMs)
    if s.config.maxRequests ≤ pruned.length then
      (false,
        blockClient
          { s with clients := setA s.clients key { client with requests := pruned } }
          key now)
    else
      (true,
        { s with clients := setA s.clients key { client with requests := pruned ++ [now] } })

/-- `isBlocked()` for key `key` at time `now`: a pure read of the blocked
set. -/
def isBlocked (s : LimiterState) (key : String) (now : Nat) :
    Bool × LimiterState :=
  (isBlockedAt s key now, s)

/-- `getRemainingRequests()`: counts the non-stale timestamps into a local
and returns `max 0 (maxRequests - count)` (truncated subtraction); the
stored record is not written. -/
def getRemainingRequests (s : LimiterState) (key : String) (now : Nat) :
    Nat × LimiterState :=
  match lookupA s.clients key with
  | none => (s.config.maxRequests, s)
  | some client =>
    ((s.config.maxRequests -
        (client.requests.filter (fun t => now - t < s.config.windowMs)).length), s)

/-- `Math.min(...requests)` for a non-empty list (the `[]` case is guarded
by the caller). -/
def oldestRequest (l : List Nat) : Nat :=
  match l with
  | [] => 0
  | x :: xs => xs.foldl Nat.min x

/-- `getTimeUntilReset()`: `max 0 (windowMs - (now - oldest))` (truncated
subtraction), `0` when there is no record or no timestamps; the stored
record is not written. -/
def getTimeUntilReset (s : LimiterState) (key : String) (now : Nat) :
    Nat × LimiterState :=
  match lookupA s.clients key with
  | none => (0, s)
  | some client =>
    if client.requests.isEmpty then (0, s)
    else (s.config.windowMs - (now - oldestRequest client.requests), s)

/-- `clearBlockedIPs()`: empties both `blockedIPs` (cancelling every pending
unblock deadline) and `suspiciousIPs`. -/
def clearBlockedIPs (s : LimiterState) : LimiterState :=
  { s with blockedUntil := [], suspiciousIPs := [] }

/-- One firing of the `startCleanup` sweep at time `now`: drop timestamps
at or below `now - 2*windowMs` from every record and delete records left
empty. -/
def cleanupSweep (s : LimiterState) (now : Nat) : LimiterState :=
  { s with
    clients :=
      (s.clients.map (fun p =>
        (p.1, { p.2 with
          requests := p.2.requests.filter
            (fun t => now - s.config.windowMs * 2 < t) }))).filter
        (fun p => !(p.2.requests.isEmpty)) }

/-- Run `checkRateLimit` for one fixed key at each time in `times`
(left to right), collecting the results. -/
def runCalls (s : LimiterState) (key : String) (times : List Nat) :
    List Bool × LimiterState :=
  match times with
  | [] => ([], s)
  | t :: ts =>
    let r := checkRateLimit s key t
    let rest := runCalls r.2 key ts
    (r.1 :: rest.1, rest.2)

/-!
Fingerprint generator (`generateFingerprint`).  The browser environment
signals it reads (`navigator.userAgent`, `navigator.language`,
`screen.width`/`screen.height`, `new Date().getTimezoneOffset()`,
`canvas.toDataURL()`) are embedded as an explicit record, together with the
availability of the 2D canvas context that `canvas.getContext('2d')` may or
may not return.
-/

/-- The environment signals read by `generateFingerprint`.
`canvas2dAvailable` is whether `canvas.getContext('2d')` returns a context
(rather than `null`). -/
structure BrowserEnv where
  userAgent : String
  language : String
  screenWidth : Nat
  screenHeight : Nat
  timezoneOffset : Int
  canvas2dAvailable : Bool
  canvasDataURL : String
  deriving DecidableEq, Repr

/-- Failure outcomes of the fingerprint generator.  `typeError` is the JS
`TypeError` thrown by dereferencing the `null` context behind the `ctx!`
non-null assertions.  `capabilityUnavailable` is modelled from the spec: the
`CapabilityUnavailable` condition of the error taxonomy (the source never
constructs it). -/
inductive JsError where
  | typeError : JsError
  | capabilityUnavailable : JsError
  deriving DecidableEq, Repr

deriving instance DecidableEq for Except

/-- JS `ToInt32`: wrap an integer to the signed 32-bit range. -/
def toInt32 (x : Int) : Int :=
  if x % 4294967296 < 2147483648 then x % 4294967296
  else x % 4294967296 - 4294967296

/-- One step of the source's hash loop:
`hash = ((hash << 5) - hash) + char; hash = hash & hash`.  The shift
coerces to Int32 (so multiplies by 32 with 32-bit wrap) and `hash & hash`
wraps the sum back to Int32. -/
def hashStep (h : Int) (c : Nat) : Int :=
  toInt32 (toInt32 (h * 32) - h + (c : Int))

/-- The source's rolling hash over a string, starting from 0. -/
def jsHash (s : String) : Int :=
  s.data.foldl (fun h ch => hashStep h ch.toNat) 0

/-- Base-36 digit character (`0`-`9` then `a`-`z`), as used by JS
`Number.prototype.toString(36)`. -/
def digit36 (n : Nat) : Char :=
  if n < 10 then Char.ofNat (48 + n) else Char.ofNat (87 + n)

/-- Base-36 digit list, most significant first; structural recursion on a
fuel argument that always suffices (`n / 36 < n` for `n ≥ 36`). -/
def base36DigitsAux : Nat → Nat → List Char
  | 0, n => [digit36 n]
  | fuel + 1, n =>
    if n < 36 then [digit36 n]
    else base36DigitsAux fuel (n / 36) ++ [digit36 (n % 36)]

/-- Base-36 digit list of a natural number, most significant first. -/
def base36Digits (n : Nat) : List Char :=
  base36DigitsAux n n

/-- JS `n.toString(36)` for a natural number. -/
def toBase36 (n : Nat) : String :=
  ⟨base36Digits n⟩

/-- The `|`-joined fingerprint string built by the source:
userAgent, language, `width + 'x' + height`, timezone offset, data URL. -/
def fingerprintString (env : BrowserEnv) : String :=
  String.intercalate "|"
    [env.userAgent, env.language,
     toString env.screenWidth ++ "x" ++ toString env.screenHeight,
     toString env.timezoneOffset, env.canvasDataURL]

/-- `generateFingerprint()`.  When the 2D context exists it hashes the
joined environment string and returns `Math.abs(hash).toString(36)`; when
`getContext('2d')` returns `null`, the first `ctx!.` dereference throws a
`TypeError`. -/
def generateFingerprint (env : BrowserEnv) : Except JsError String :=
  if env.canvas2dAvailable then
    Except.ok (toBase36 (Int.natAbs (jsHash (fingerprintString env))))
  else
    Except.error JsError.typeError

/-- The hash recurrence exactly as the claim words it:
`hash = hash*31 - hash + charCode`, wrapped to a 32-bit signed integer at
each step from initial value 0. -/
def claimedHashStep (h : Int) (c : Nat) : Int :=
  toInt32 (h * 31 - h + (c : Int))

/-- Folding the claim's literal recurrence over a string. -/
def claimedHash (s : String) : Int :=
  s.data.foldl (fun h ch => claimedHashStep h ch.toNat) 0

/-- The fingerprint the claim's wording describes: the claimed recurrence's
absolute value in base-36 over the joined environment string. -/
def claimedFingerprint (env : BrowserEnv) : String :=
  toBase36 (Int.natAbs (claimedHash (fingerprintString env)))

/-- The amended recurrence: `hash = hash*32 - hash + charCode`
(equivalently `hash*31 + charCode`), wrapped to 32 bits at each step. -/
def amendedHashStep (h : Int) (c : Nat) : Int :=
  toInt32 (h * 31 + (c : Int))

/-- Folding the amended recurrence over a string. -/
def amendedHash (s : String) : Int :=
  s.data.foldl (fun h ch => amendedHashStep h ch.toNat) 0

/-! ### Association-list lemmas -/

theorem lookupA_setA_self {α : Type} (m : List (String × α)) (k : String)
    (v : α) : lookupA (setA m k v) k = some v := by
  induction m with
  | nil => simp [setA, lookupA]
  | cons p rest ih =>
    obtain ⟨k', v'⟩ := p
    by_cases h : k' = k
    · simp [setA, h, lookupA]
    · simp [setA, h, lookupA, ih]

theorem setA_setA {α : Type} (m : List (String × α)) (k : String)
    (v w : α) : setA (setA m k v) k w = setA m k w := by
  induction m with
  | nil => simp [setA]
  | cons p rest ih =>
    obtain ⟨k', v'⟩ := p
    by_cases h : k' = k
    · simp [setA, h]
    · simp [setA, h, ih]

/-! ### Projection lemmas for the state record -/

@[simp]
theorem susp_config (s : LimiterState) (l : List String) :
    ({ s with suspiciousIPs := l } : LimiterState).config = s.config := rfl

@[simp]
theorem susp_clients (s : LimiterState) (l : List String) :
    ({ s with suspiciousIPs := l } : LimiterState).clients = s.clients := rfl

@[simp]
theorem susp_blockedUntil (s : LimiterState) (l : List String) :
    ({ s with suspiciousIPs := l } : LimiterState).blockedUntil =
      s.blockedUntil := rfl

@[simp]
theorem isBlockedAt_susp (s : LimiterState) (l : List String) (key : String)
    (now : Nat) :
    isBlockedAt { s with suspiciousIPs := l } key now =
      isBlockedAt s key now := rfl

/-! ### Step lemmas for `checkRateLimit` -/

theorem checkRateLimit_blocked (s : LimiterState) (key : String) (now : Nat)
    (hb : isBlockedAt s key now = true) :
    checkRateLimit s key now = (false, s) := by
  simp [checkRateLimit, hb]

theorem checkRateLimit_admit (s : LimiterState) (key : String) (now : Nat)
    (c : ClientInfo)
    (hnb : isBlockedAt s key now = false)
    (hc : (lookupA s.clients key).getD (freshClient key) = c)
    (hkeep : c.requests.filter (fun t => now - t < s.config.windowMs) =
      c.requests)
    (hlen : c.requests.length < s.config.maxRequests) :
    checkRateLimit s key now =
      (true, { s with clients := setA s.clients key { c with requests := c.requests ++ [now] } }) := by
  simp only [checkRateLimit, hnb, Bool.false_eq_true, if_false, hc, hkeep]
  rw [if_neg (by omega)]

theorem checkRateLimit_block (s : LimiterState) (key : String) (now : Nat)
    (c : ClientInfo)
    (hnb : isBlockedAt s key now = false)
    (hc : (lookupA s.clients key).getD (freshClient key) = c)
    (hlen : s.config.maxRequests ≤
      (c.requests.filter (fun t => now - t < s.config.windowMs)).length) :
    checkRateLimit s key now =
      (false,
        blockClient
          { s with clients := setA s.clients key { c with requests := c.requests.filter (fun t => now - t < s.config.windowMs) } }
          key now) := by
  simp only [checkRateLimit, hnb, Bool.false_eq_true, if_false, hc]
  rw [if_pos hlen]

/-! ### `runCalls` lemmas -/

theorem runCalls_append (s : LimiterState) (key : String)
    (l1 l2 : List Nat) :
    runCalls s key (l1 ++ l2) =
      ((runCalls s key l1).1 ++ (runCalls (runCalls s key l1).2 key l2).1,
       (runCalls (runCalls s key l1).2 key l2).2) := by
  induction l1 generalizing s with
  | nil => simp [runCalls]
  | cons t ts ih => simp [runCalls, ih]

theorem runCalls_length (s : LimiterState) (key : String) (l : List Nat) :
    (runCalls s key l).1.length = l.length := by
  induction l generalizing s with
  | nil => simp [runCalls]
  | cons t ts ih => simp [runCalls, ih]

/-- A run of calls for one key in which every call is admitted: the key is
never blocked during the run, the window is wide enough that nothing is
pruned, and the quota is never exceeded.  Every call returns `true`, the
call times are appended to the record in order, and the blocked set and
configuration are untouched. -/
theorem runCalls_admit (key : String) (ts : List Nat) :
    ∀ (s : LimiterState) (c : ClientInfo),
    (lookupA s.clients key).getD (freshClient key) = c →
    (∀ u ∈ ts, isBlockedAt s key u = false) →
    c.requests.length + ts.length ≤ s.config.maxRequests →
    (∀ u ∈ ts, ∀ x ∈ c.requests, u - x < s.config.windowMs) →
    (∀ u ∈ ts, ∀ x ∈ ts, u - x < s.config.windowMs) →
    (runCalls s key ts).1 = List.replicate ts.length true ∧
    (lookupA (runCalls s key ts).2.clients key).getD (freshClient key) =
      { c with requests := c.requests ++ ts } ∧
    (runCalls s key ts).2.blockedUntil = s.blockedUntil ∧
    (runCalls s key ts).2.config = s.config := by
  induction ts with
  | nil =>
    intro s c hc _ _ _ _
    refine ⟨rfl, ?_, rfl, rfl⟩
    simpa using hc
  | cons t rest ih =>
    intro s c hc hnb hlen hwinPrev hwinRun
    have hnbt : isBlockedAt s key t = false := hnb t (by simp)
    have hkeep : c.requests.filter (fun x => t - x < s.config.windowMs) =
        c.requests := by
      rw [List.filter_eq_self]
      intro x hx
      simp only [decide_eq_true_eq]
      exact hwinPrev t (by simp) x hx
    have hlt : c.requests.length < s.config.maxRequests := by
      simp only [List.length_cons] at hlen
      omega
    have hstep := checkRateLimit_admit s key t c hnbt hc hkeep hlt
    have hrun : runCalls s key (t :: rest) =
        ((checkRateLimit s key t).1 :: (runCalls (checkRateLimit s key t).2 key rest).1,
         (runCalls (checkRateLimit s key t).2 key rest).2) := rfl
    rw [hrun, hstep]
    set s1 : LimiterState :=
      { s with clients := setA s.clients key { c with requests := c.requests ++ [t] } } with hs1
    have hc1 : (lookupA s1.clients key).getD (freshClient key) =
        { c with requests := c.requests ++ [t] } := by
      rw [hs1]
      simp [lookupA_setA_self]
    have hnb1 : ∀ u ∈ rest, isBlockedAt s1 key u = false := by
      intro u hu
      have h : isBlockedAt s1 key u = isBlockedAt s key u := rfl
      rw [h]
      exact hnb u (by simp [hu])
    have hlen1 : ({ c with requests := c.requests ++ [t] } : ClientInfo).requests.length +
        rest.length ≤ s1.config.maxRequests := by
      simp only [List.length_append, List.length_cons, List.length_nil] at hlen ⊢
      have h : s1.config = s.config := rfl
      rw [h]
      omega
    have hwinPrev1 : ∀ u ∈ rest,
        ∀ x ∈ ({ c with requests := c.requests ++ [t] } : ClientInfo).requests,
        u - x < s1.config.windowMs := by
      intro u hu x hx
      have hcfg : s1.config = s.config := rfl
      rw [hcfg]
      simp only [List.mem_append, List.mem_singleton] at hx
      rcases hx with hx | hx
      · exact hwinPrev u (by simp [hu]) x hx
      · rw [hx]
        exact hwinRun u (by simp [hu]) t (by simp)
    have hwinRun1 : ∀ u ∈ rest, ∀ x ∈ rest, u - x < s1.config.windowMs := by
      intro u hu x hx
      have hcfg : s1.config = s.config := rfl
      rw [hcfg]
      exact hwinRun u (by simp [hu]) x (by simp [hx])
    obtain ⟨h1, h2, h3, h4⟩ := ih s1 _ hc1 hnb1 hlen1 hwinPrev1 hwinRun1
    refine ⟨?_, ?_, ?_, ?_⟩
    · simp [h1, List.replicate_succ]
    · rw [h2]
      simp
    · rw [h3]
    · rw [h4]

theorem checkRateLimit_admit_pruned (s : LimiterState) (key : String)
    (now : Nat) (c : ClientInfo)
    (hnb : isBlockedAt s key now = false)
    (hc : (lookupA s.clients key).getD (freshClient key) = c)
    (hlen : (c.requests.filter (fun t => now - t < s.config.windowMs)).length <
      s.config.maxRequests) :
    checkRateLimit s key now =
      (true,
        { s with clients := setA s.clients key { c with requests := c.requests.filter (fun t => now - t < s.config.windowMs) ++ [now] } }) := by
  simp only [checkRateLimit, hnb, Bool.false_eq_true, if_false, hc]
  rw [if_neg (by omega)]

/-! ### 32-bit wrap lemmas for the hash -/

theorem toInt32_emod (x : Int) :
    toInt32 x % 4294967296 = x % 4294967296 := by
  unfold toInt32
  split <;> omega

theorem toInt32_congr {x y : Int}
    (h : x % 4294967296 = y % 4294967296) : toInt32 x = toInt32 y := by
  unfold toInt32
  rw [h]

theorem hashStep_eq_amended (h : Int) (c : Nat) :
    hashStep h c = amendedHashStep h c := by
  unfold hashStep amendedHashStep
  apply toInt32_congr
  have h1 := toInt32_emod (h * 32)
  omega

theorem foldl_hashStep_eq_amended (l : List Char) :
    ∀ h0 : Int,
    l.foldl (fun h ch => hashStep h ch.toNat) h0 =
      l.foldl (fun h ch => amendedHashStep h ch.toNat) h0 := by
  induction l with
  | nil => intro h0; rfl
  | cons ch rest ih =>
    intro h0
    simp only [List.foldl_cons, hashStep_eq_amended, ih]

theorem jsHash_eq_amendedHash (s : String) : jsHash s = amendedHash s := by
  unfold jsHash amendedHash
  exact foldl_hashStep_eq_amended s.data 0

/-! ### Claim C1 -/

/-- Claim C1: for a configuration with `maxRequests ≥ 1` and a single fixed
key with no record and no active block, in any sequence of `checkRateLimit`
calls all issued within a span shorter than `windowMs` (call times
non-decreasing, any two call times less than `windowMs` apart), each of the
first `maxRequests` calls returns `true` and the `(maxRequests+1)`-th call
returns `false`. -/
theorem c1_first_window_threshold
    (s : LimiterState) (key : String) (ts : List Nat) (M : Nat)
    (hM : s.config.maxRequests = M) (hM1 : 1 ≤ M)
    (hfresh : lookupA s.clients key = none)
    (hnb : ∀ u ∈ ts, isBlockedAt s key u = false)
    (hlen : M + 1 ≤ ts.length)
    (hmono : ts.Chain' (· ≤ ·))
    (hspan : ∀ u ∈ ts, ∀ x ∈ ts, u - x < s.config.windowMs) :
    (runCalls s key ts).1.take (M + 1) = List.replicate M true ++ [false] := by
  have hts : ts.take (M + 1) ++ ts.drop (M + 1) = ts := List.take_append_drop _ _
  have hl1len : (ts.take (M + 1)).length = M + 1 := by
    rw [List.length_take]
    omega
  have hsub1 : ∀ u ∈ ts.take (M + 1), u ∈ ts := fun u hu => List.take_subset _ _ hu
  have hr1 : (runCalls s key (ts.take (M + 1))).1.length = M + 1 := by
    rw [runCalls_length, hl1len]
  have htake : (runCalls s key ts).1.take (M + 1) =
      (runCalls s key (ts.take (M + 1))).1 := by
    conv_lhs => rw [← hts]
    rw [runCalls_append]
    exact List.take_left' hr1
  have hne : ts.take (M + 1) ≠ [] := by
    intro h
    rw [h] at hl1len
    simp at hl1len
  have hfl : (ts.take (M + 1)).dropLast ++ [(ts.take (M + 1)).getLast hne] =
      ts.take (M + 1) := List.dropLast_append_getLast hne
  have hfrontlen : (ts.take (M + 1)).dropLast.length = M := by
    rw [List.length_dropLast, hl1len]
    omega
  have hfront_sub : ∀ u ∈ (ts.take (M + 1)).dropLast, u ∈ ts :=
    fun u hu => hsub1 u (List.dropLast_subset _ hu)
  have htl_mem : (ts.take (M + 1)).getLast hne ∈ ts :=
    hsub1 _ (List.getLast_mem hne)
  obtain ⟨h1, h2, h3, h4⟩ :=
    runCalls_admit key (ts.take (M + 1)).dropLast s (freshClient key)
      (by rw [hfresh]; rfl)
      (fun u hu => hnb u (hfront_sub u hu))
      (by simp [freshClient, hfrontlen, hM])
      (by intro u hu x hx; simp [freshClient] at hx)
      (fun u hu x hx => hspan u (hfront_sub u hu) x (hfront_sub x hx))
  have hnbE : isBlockedAt (runCalls s key (ts.take (M + 1)).dropLast).2 key
      ((ts.take (M + 1)).getLast hne) = false := by
    have hb := hnb ((ts.take (M + 1)).getLast hne) htl_mem
    unfold isBlockedAt at hb ⊢
    rw [h3]
    exact hb
  have hkeepE :
      (({ freshClient key with requests := [] ++ (ts.take (M + 1)).dropLast } : ClientInfo)).requests.filter
        (fun x => (ts.take (M + 1)).getLast hne - x <
          (runCalls s key (ts.take (M + 1)).dropLast).2.config.windowMs) =
        [] ++ (ts.take (M + 1)).dropLast := by
    rw [List.filter_eq_self]
    intro x hx
    simp only [List.nil_append] at hx
    simp only [decide_eq_true_eq]
    rw [h4]
    exact hspan _ htl_mem x (hfront_sub x hx)
  have hlenE : (runCalls s key (ts.take (M + 1)).dropLast).2.config.maxRequests ≤
      ((({ freshClient key with requests := [] ++ (ts.take (M + 1)).dropLast } : ClientInfo)).requests.filter
        (fun x => (ts.take (M + 1)).getLast hne - x <
          (runCalls s key (ts.take (M + 1)).dropLast).2.config.windowMs)).length := by
    rw [hkeepE]
    simp [hfrontlen, h4, hM]
  have hblock : (checkRateLimit (runCalls s key (ts.take (M + 1)).dropLast).2 key
      ((ts.take (M + 1)).getLast hne)).1 = false := by
    rw [checkRateLimit_block _ _ _ _ hnbE h2 hlenE]
  rw [htake]
  conv_lhs => rw [← hfl]
  rw [runCalls_append, h1, hfrontlen]
  simp [runCalls, hblock]

/-- Witness for C1 at `maxRequests = 2`, `windowMs = 1000`, calls at
`0, 10, 20`. -/
theorem c1_witness :
    (runCalls
      { config := { maxRequests := 2, windowMs := 1000, blockDurationMs := 5000, enableLogging := false },
        clients := [], blockedUntil := [], suspiciousIPs := [] }
      "k" [0, 10, 20]).1.take 3 = List.replicate 2 true ++ [false] :=
  c1_first_window_threshold _ "k" [0, 10, 20] 2 rfl (by decide) rfl
    (by decide) (by decide) (by simp [List.chain'_cons]) (by decide)

/-! ### Claim C2 -/

/-- The concrete scenario state of claim C2: a fresh limiter configured with
`maxRequests = 3`, `windowMs = 1000`, `blockDurationMs = 5000`. -/
def c2Start : LimiterState :=
  { config := { maxRequests := 3, windowMs := 1000, blockDurationMs := 5000, enableLogging := false },
    clients := [], blockedUntil := [], suspiciousIPs := [] }

/-- Counterexample to claim C2: in the claimed scenario the call at
`t = 5001` returns `false`, not `true` — the block armed at `t = 300` lasts
until `300 + 5000 = 5300`, so at `5001` the key is still blocked. -/
theorem c2_counterexample :
    (runCalls c2Start "k" [0, 100, 200, 300, 4999, 5001]).1 =
      [true, true, true, false, false, false] ∧
    (runCalls c2Start "k" [0, 100, 200, 300, 4999, 5001]).1 ≠
      [true, true, true, false, false, true] ∧
    lookupA (runCalls c2Start "k" [0, 100, 200, 300]).2.blockedUntil "k" =
      some 5300 := by decide

/-- Claim C2 as amended: calls at `t = 0, 100, 200` return `true`; the call
at `t = 300` returns `false` and blocks the key until
`300 + 5000 = 5300`; the call at `t = 4999` returns `false`; and a call at
`t = 5301` (after the block expires) returns `true` with the key's window
count restarting at 1. -/
theorem c2_scenario_amended :
    (runCalls c2Start "k" [0, 100, 200, 300, 4999, 5301]).1 =
      [true, true, true, false, false, true] ∧
    isBlockedAt (runCalls c2Start "k" [0, 100, 200, 300]).2 "k" 300 = true ∧
    lookupA (runCalls c2Start "k" [0, 100, 200, 300]).2.blockedUntil "k" =
      some 5300 ∧
    (lookupA (runCalls c2Start "k" [0, 100, 200, 300, 4999, 5301]).2.clients "k").getD
        (freshClient "k") =
      { ip := "k", requests := [5301], blocked := false, blockUntil := 0 } := by
  decide

/-! ### Claim C3 -/

/-- A state for the C3 counterexample: `maxRequests = 2`, one non-stale
timestamp recorded for key `"k"`, key not blocked. -/
def c3State : LimiterState :=
  { config := { maxRequests := 2, windowMs := 1000, blockDurationMs := 5000, enableLogging := false },
    clients := [("k", { ip := "k", requests := [0], blocked := false, blockUntil := 0 })],
    blockedUntil := [], suspiciousIPs := [] }

/-- Counterexample to claim C3: with `maxRequests - 1 = 1` non-stale
timestamps in the window and no block, the next `checkRateLimit` call is
admitted (returns `true` and blocks nothing), whereas the claim says that
call is the one that blocks and returns `false`. -/
theorem c3_counterexample :
    isBlockedAt c3State "k" 1 = false ∧
    lookupA c3State.clients "k" =
      some { ip := "k", requests := [0], blocked := false, blockUntil := 0 } ∧
    (List.filter (fun x => decide ((1 : Nat) - x < c3State.config.windowMs))
        [0]).length = c3State.config.maxRequests - 1 ∧
    (checkRateLimit c3State "k" 1).1 = true ∧
    lookupA (checkRateLimit c3State "k" 1).2.blockedUntil "k" = none := by
  decide

/-- Claim C3 as amended: the Open-to-Blocked transition fires on exactly the
`checkRateLimit` call that finds the trailing-window count already at
`maxRequests`: if a key has `maxRequests` non-stale timestamps in its window
and is not blocked, the next call moves it into the blocked set (with
deadline `now + blockDurationMs`) and returns `false`. -/
theorem c3_open_to_blocked_amended
    (s : LimiterState) (key : String) (now : Nat) (c : ClientInfo)
    (hnb : isBlockedAt s key now = false)
    (hc : (lookupA s.clients key).getD (freshClient key) = c)
    (hcnt : (c.requests.filter (fun t => now - t < s.config.windowMs)).length =
      s.config.maxRequests)
    (hB : 0 < s.config.blockDurationMs) :
    (checkRateLimit s key now).1 = false ∧
    lookupA (checkRateLimit s key now).2.blockedUntil key =
      some (now + s.config.blockDurationMs) ∧
    isBlockedAt (checkRateLimit s key now).2 key now = true := by
  rw [checkRateLimit_block s key now c hnb hc (le_of_eq hcnt.symm)]
  refine ⟨rfl, ?_, ?_⟩
  · unfold blockClient
    simp [lookupA_setA_self]
  · unfold blockClient isBlockedAt
    simp [lookupA_setA_self]
    omega

/-- Witness for the amended C3: `maxRequests = 2`, two non-stale timestamps,
the call at `t = 600` blocks the key until `5600` and returns `false`. -/
theorem c3_amended_witness :
    (checkRateLimit
      { config := { maxRequests := 2, windowMs := 1000, blockDurationMs := 5000, enableLogging := false },
        clients := [("k", { ip := "k", requests := [0, 500], blocked := false, blockUntil := 0 })],
        blockedUntil := [], suspiciousIPs := [] } "k" 600).1 = false ∧
    lookupA (checkRateLimit
      { config := { maxRequests := 2, windowMs := 1000, blockDurationMs := 5000, enableLogging := false },
        clients := [("k", { ip := "k", requests := [0, 500], blocked := false, blockUntil := 0 })],
        blockedUntil := [], suspiciousIPs := [] } "k" 600).2.blockedUntil "k" = some 5600 ∧
    isBlockedAt (checkRateLimit
      { config := { maxRequests := 2, windowMs := 1000, blockDurationMs := 5000, enableLogging := false },
        clients := [("k", { ip := "k", requests := [0, 500], blocked := false, blockUntil := 0 })],
        blockedUntil := [], suspiciousIPs := [] } "k" 600).2 "k" 600 = true :=
  c3_open_to_blocked_amended _ "k" 600
    { ip := "k", requests := [0, 500], blocked := false, blockUntil := 0 }
    (by decide) (by decide) (by decide) (by decide)

/-! ### Claim C4 -/

/-- A state for the C4 counterexample: `maxRequests = 1`,
`windowMs = 1000`, `blockDurationMs = 100` (shorter than the window). -/
def c4State : LimiterState :=
  { config := { maxRequests := 1, windowMs := 1000, blockDurationMs := 100, enableLogging := false },
    clients := [], blockedUntil := [], suspiciousIPs := [] }

/-- Counterexample to claim C4: with `blockDurationMs < windowMs` the key
is denied and blocked at `t = 1` with deadline `1 + 100 = 101`, no request
arrives during the block, yet the first call after the deadline
(`u = 102 > 101`) returns `false` — the timestamp recorded at `t = 0` is
still inside the window, so the call re-blocks instead of admitting. -/
theorem c4_counterexample :
    (runCalls c4State "k" [0, 1]).1 = [true, false] ∧
    lookupA (runCalls c4State "k" [0, 1]).2.blockedUntil "k" = some 101 ∧
    (checkRateLimit (runCalls c4State "k" [0, 1]).2 "k" 102).1 = false := by
  decide

/-- Claim C4 as amended: suppose `maxRequests ≥ 1`,
`windowMs ≤ blockDurationMs`, the key's recorded timestamps are all `≤ t`,
the key is not blocked at `t`, and the call at `t` is denied (hence blocks
the key with deadline `t + blockDurationMs`).  Then every call for the key
strictly before `t + blockDurationMs` returns `false` and leaves the state
unchanged, and if no requests for the key occurred during the block, the
first call strictly after `t + blockDurationMs` returns `true`. -/
theorem c4_block_duration_amended
    (s : LimiterState) (key : String) (t : Nat) (c : ClientInfo)
    (hM : 1 ≤ s.config.maxRequests)
    (hWB : s.config.windowMs ≤ s.config.blockDurationMs)
    (hc : (lookupA s.clients key).getD (freshClient key) = c)
    (hts : ∀ x ∈ c.requests, x ≤ t)
    (hnb : isBlockedAt s key t = false)
    (hden : (checkRateLimit s key t).1 = false) :
    (∀ u, u < t + s.config.blockDurationMs →
      checkRateLimit (checkRateLimit s key t).2 key u =
        (false, (checkRateLimit s key t).2)) ∧
    (∀ u, t + s.config.blockDurationMs < u →
      (checkRateLimit (checkRateLimit s key t).2 key u).1 = true) := by
  by_cases hle : s.config.maxRequests ≤
      (c.requests.filter (fun x => t - x < s.config.windowMs)).length
  case neg =>
    rw [checkRateLimit_admit_pruned s key t c hnb hc (by omega)] at hden
    simp at hden
  case pos =>
    have hstep := checkRateLimit_block s key t c hnb hc hle
    rw [hstep]
    have hbu : lookupA (blockClient { s with clients := setA s.clients key { c with requests := c.requests.filter (fun x => t - x < s.config.windowMs) } } key t).blockedUntil key =
        some (t + s.config.blockDurationMs) := by
      unfold blockClient
      simp [lookupA_setA_self]
    constructor
    · intro u hu
      apply checkRateLimit_blocked
      unfold isBlockedAt
      rw [hbu]
      simp [hu]
    · intro u hu
      have hnb2 : isBlockedAt (blockClient { s with clients := setA s.clients key { c with requests := c.requests.filter (fun x => t - x < s.config.windowMs) } } key t) key u = false := by
        unfold isBlockedAt
        rw [hbu]
        simp
        omega
      have hc2 : (lookupA (blockClient { s with clients := setA s.clients key { c with requests := c.requests.filter (fun x => t - x < s.config.windowMs) } } key t).clients key).getD (freshClient key) =
          { c with requests := c.requests.filter (fun x => t - x < s.config.windowMs) } := by
        unfold blockClient
        simp [lookupA_setA_self]
      have hfilter : (({ c with requests := c.requests.filter (fun x => t - x < s.config.windowMs) } : ClientInfo)).requests.filter
          (fun x => u - x < (blockClient { s with clients := setA s.clients key { c with requests := c.requests.filter (fun x => t - x < s.config.windowMs) } } key t).config.windowMs) = [] := by
        rw [List.filter_eq_nil_iff]
        intro x hx
        simp only [decide_eq_true_eq, not_lt]
        have hxc : x ∈ c.requests := List.mem_of_mem_filter hx
        have hxt : x ≤ t := hts x hxc
        have hcfg : (blockClient { s with clients := setA s.clients key { c with requests := c.requests.filter (fun x => t - x < s.config.windowMs) } } key t).config = s.config := rfl
        rw [hcfg]
        omega
      rw [checkRateLimit_admit_pruned _ key u _ hnb2 hc2 (by rw [hfilter]; simpa using hM)]

/-- Witness for the amended C4: config `{1, 1000, 1000}`, one timestamp at
`0`, denial and block at `t = 500` (deadline `1500`); the call at
`u = 1000 < 1500` is rejected with no state change, and the call at
`u = 1501 > 1500` is admitted. -/
theorem c4_amended_witness :
    checkRateLimit
        (checkRateLimit
          { config := { maxRequests := 1, windowMs := 1000, blockDurationMs := 1000, enableLogging := false },
            clients := [("k", { ip := "k", requests := [0], blocked := false, blockUntil := 0 })],
            blockedUntil := [], suspiciousIPs := [] } "k" 500).2 "k" 1000 =
      (false,
        (checkRateLimit
          { config := { maxRequests := 1, windowMs := 1000, blockDurationMs := 1000, enableLogging := false },
            clients := [("k", { ip := "k", requests := [0], blocked := false, blockUntil := 0 })],
            blockedUntil := [], suspiciousIPs := [] } "k" 500).2) ∧
    (checkRateLimit
        (checkRateLimit
          { config := { maxRequests := 1, windowMs := 1000, blockDurationMs := 1000, enableLogging := false },
            clients := [("k", { ip := "k", requests := [0], blocked := false, blockUntil := 0 })],
            blockedUntil := [], suspiciousIPs := [] } "k" 500).2 "k" 1501).1 = true :=
  ⟨(c4_block_duration_amended _ "k" 500
      { ip := "k", requests := [0], blocked := false, blockUntil := 0 }
      (by decide) (by decide) (by decide) (by decide) (by decide) (by decide)).1
    1000 (by decide),
   (c4_block_duration_amended _ "k" 500
      { ip := "k", requests := [0], blocked := false, blockUntil := 0 }
      (by decide) (by decide) (by decide) (by decide) (by decide) (by decide)).2
    1501 (by decide)⟩

/-! ### Claim C5 -/

/-- Claim C5: in every state, a key in the blocked set is rejected by
`checkRateLimit` regardless of its recorded timestamps, and the call
performs no state change at all: no pruning, no appended timestamp, no
record creation. -/
theorem c5_blocked_always_rejected
    (s : LimiterState) (key : String) (now : Nat)
    (hb : isBlockedAt s key now = true) :
    checkRateLimit s key now = (false, s) :=
  checkRateLimit_blocked s key now hb

/-- Witness for C5: a blocked key with a stale-heavy record is rejected
with the state unchanged. -/
theorem c5_witness :
    checkRateLimit
      { config := { maxRequests := 3, windowMs := 1000, blockDurationMs := 5000, enableLogging := false },
        clients := [("k", { ip := "k", requests := [0, 1, 2], blocked := false, blockUntil := 0 })],
        blockedUntil := [("k", 900)], suspiciousIPs := [] } "k" 400 =
    (false,
      { config := { maxRequests := 3, windowMs := 1000, blockDurationMs := 5000, enableLogging := false },
        clients := [("k", { ip := "k", requests := [0, 1, 2], blocked := false, blockUntil := 0 })],
        blockedUntil := [("k", 900)], suspiciousIPs := [] }) :=
  c5_blocked_always_rejected _ "k" 400 (by decide)

/-! ### Claim C6 -/

/-- A concrete environment for the C6 counterexample, joining to the
fingerprint string `"a|b|1x1|0|c"`. -/
def c6Env : BrowserEnv :=
  { userAgent := "a", language := "b", screenWidth := 1, screenHeight := 1,
    timezoneOffset := 0, canvas2dAvailable := true, canvasDataURL := "c" }

/-- Counterexample to claim C6: on the environment joining to
`"a|b|1x1|0|c"`, the source hash (`(hash << 5) - hash + charCode`, i.e.
`hash*31 + charCode`) yields fingerprint `"heqqsw"`, while the claim's
literal recurrence `hash = hash*31 - hash + charCode` (i.e.
`hash*30 + charCode`) yields `"1hsxk5"` — so `generateFingerprint` does not
return the claimed value. -/
theorem c6_counterexample :
    generateFingerprint c6Env = Except.ok "heqqsw" ∧
    toBase36 (Int.natAbs (claimedHash (fingerprintString c6Env))) = "1hsxk5" ∧
    generateFingerprint c6Env ≠
      Except.ok (toBase36 (Int.natAbs (claimedHash (fingerprintString c6Env)))) := by
  decide

/-- Claim C6 as amended: `generateFingerprint` concatenates the environment
attributes with the separator `"|"` and, for every such input string, folds
it character by character via `hash = hash*32 - hash + charCode`
(equivalently `hash*31 + charCode`), wrapping to a 32-bit signed integer at
each step from initial value 0, and returns the absolute value of the final
hash encoded in base-36. -/
theorem c6_hash_amended (env : BrowserEnv)
    (h : env.canvas2dAvailable = true) :
    generateFingerprint env =
      Except.ok (toBase36 (Int.natAbs (amendedHash (fingerprintString env)))) := by
  simp [generateFingerprint, h, jsHash_eq_amendedHash]

/-- Witness for the amended C6 at the concrete environment `c6Env`. -/
theorem c6_amended_witness :
    generateFingerprint c6Env =
      Except.ok (toBase36 (Int.natAbs (amendedHash (fingerprintString c6Env)))) :=
  c6_hash_amended c6Env rfl

/-! ### Claim C7 -/

/-- A state for the C7 counterexample: window `1000`, timestamps `[0, 500]`
recorded for `"k"`. -/
def c7State : LimiterState :=
  { config := { maxRequests := 3, windowMs := 1000, blockDurationMs := 5000, enableLogging := false },
    clients := [("k", { ip := "k", requests := [0, 500], blocked := false, blockUntil := 0 })],
    blockedUntil := [], suspiciousIPs := [] }

/-- Counterexample to claim C7: the `checkRateLimit` call at `now = 1000`
prunes the oldest timestamp `0` (leaving `[500, 1000]`), yet immediately
afterwards `getTimeUntilReset` is `500`, not `windowMs = 1000` — the value
does not reset to `windowDuration` after the oldest timestamp is pruned. -/
theorem c7_counterexample :
    (lookupA (checkRateLimit c7State "k" 1000).2.clients "k").getD (freshClient "k") =
      { ip := "k", requests := [500, 1000], blocked := false, blockUntil := 0 } ∧
    (getTimeUntilReset (checkRateLimit c7State "k" 1000).2 "k" 1000).1 = 500 ∧
    (getTimeUntilReset (checkRateLimit c7State "k" 1000).2 "k" 1000).1 ≠
      c7State.config.windowMs := by
  decide

/-- Claim C7 as amended: for a fixed key with an unchanged record,
`getTimeUntilReset` is monotonically non-increasing as `now` advances; and
immediately after a `checkRateLimit` call whose pruning removes all of the
key's stored timestamps (so only the newly appended `now` remains), its
value is exactly `windowMs`. -/
theorem c7_reset_amended (s : LimiterState) (key : String) :
    (∀ n1 n2 : Nat, n1 ≤ n2 →
      (getTimeUntilReset s key n2).1 ≤ (getTimeUntilReset s key n1).1) ∧
    (∀ (now : Nat) (c : ClientInfo),
      isBlockedAt s key now = false →
      (lookupA s.clients key).getD (freshClient key) = c →
      c.requests.filter (fun x => now - x < s.config.windowMs) = [] →
      1 ≤ s.config.maxRequests →
      (getTimeUntilReset (checkRateLimit s key now).2 key now).1 =
        s.config.windowMs) := by
  constructor
  · intro n1 n2 h
    unfold getTimeUntilReset
    cases hl : lookupA s.clients key with
    | none => simp
    | some client =>
      by_cases he : client.requests.isEmpty
      · simp [he]
      · simp [he]
        omega
  · intro now c hnb hc hprune hM
    rw [checkRateLimit_admit_pruned s key now c hnb hc (by rw [hprune]; simpa using hM)]
    unfold getTimeUntilReset
    simp [lookupA_setA_self, hprune, oldestRequest]

/-- Witness for the amended C7: monotonicity on `c7State` between
`now = 600` and `now = 700`, and the reset-to-window value after a call
that prunes every stored timestamp. -/
theorem c7_amended_witness :
    (getTimeUntilReset c7State "k" 700).1 ≤ (getTimeUntilReset c7State "k" 600).1 ∧
    (getTimeUntilReset
        (checkRateLimit
          { config := { maxRequests := 3, windowMs := 1000, blockDurationMs := 5000, enableLogging := false },
            clients := [("k", { ip := "k", requests := [0], blocked := false, blockUntil := 0 })],
            blockedUntil := [], suspiciousIPs := [] } "k" 2000).2 "k" 2000).1 = 1000 :=
  ⟨(c7_reset_amended c7State "k").1 600 700 (by decide),
   (c7_reset_amended _ "k").2 2000
     { ip := "k", requests := [0], blocked := false, blockUntil := 0 }
     (by decide) (by decide) (by decide) (by decide)⟩

/-! ### Claim C8 -/

/-- Claim C8 (the spec's required behaviour, which the code does not
implement): when the 2D canvas context is unavailable,
`generateFingerprint` raises the JS `TypeError` of the unguarded `ctx!`
dereference — it neither produces a key nor raises the
`CapabilityUnavailable` condition the spec requires. -/
theorem c8_null_context_typeError (env : BrowserEnv)
    (h : env.canvas2dAvailable = false) :
    generateFingerprint env = Except.error JsError.typeError ∧
    (Except.error JsError.typeError : Except JsError String) ≠
      Except.error JsError.capabilityUnavailable := by
  refine ⟨?_, by decide⟩
  simp [generateFingerprint, h]

/-- Witness for C8 at a concrete environment with no 2D context. -/
theorem c8_witness :
    generateFingerprint
        { userAgent := "a", language := "b", screenWidth := 1, screenHeight := 1,
          timezoneOffset := 0, canvas2dAvailable := false, canvasDataURL := "" } =
      Except.error JsError.typeError ∧
    (Except.error JsError.typeError : Except JsError String) ≠
      Except.error JsError.capabilityUnavailable :=
  c8_null_context_typeError _ rfl

/-! ### Claim C9 -/

/-- Claim C9: the suspicious-keys set never influences admission — two
states differing only in `suspiciousIPs` give the same results and the same
client-map and blocked-set updates for `checkRateLimit`, `isBlocked`,
`getRemainingRequests` and `getTimeUntilReset`; and `checkRateLimit` only
ever leaves `suspiciousIPs` unchanged or adds the key (via `blockClient`),
while `clearBlockedIPs` empties it. -/
theorem c9_suspicious_noninterference (s : LimiterState) (l : List String)
    (key : String) (now : Nat) :
    (checkRateLimit { s with suspiciousIPs := l } key now).1 =
      (checkRateLimit s key now).1 ∧
    (checkRateLimit { s with suspiciousIPs := l } key now).2.clients =
      (checkRateLimit s key now).2.clients ∧
    (checkRateLimit { s with suspiciousIPs := l } key now).2.blockedUntil =
      (checkRateLimit s key now).2.blockedUntil ∧
    isBlockedAt { s with suspiciousIPs := l } key now = isBlockedAt s key now ∧
    (getRemainingRequests { s with suspiciousIPs := l } key now).1 =
      (getRemainingRequests s key now).1 ∧
    (getTimeUntilReset { s with suspiciousIPs := l } key now).1 =
      (getTimeUntilReset s key now).1 ∧
    ((checkRateLimit s key now).2.suspiciousIPs = s.suspiciousIPs ∨
      (checkRateLimit s key now).2.suspiciousIPs =
        addSuspicious key s.suspiciousIPs) ∧
    (clearBlockedIPs s).suspiciousIPs = [] := by
  refine ⟨?_, ?_, ?_, rfl, ?_, ?_, ?_, rfl⟩
  · cases hb : isBlockedAt s key now
    · by_cases h2 : s.config.maxRequests ≤
        (((lookupA s.clients key).getD (freshClient key)).requests.filter
          (fun t => now - t < s.config.windowMs)).length
      · simp [checkRateLimit, blockClient, hb, h2]
      · simp [checkRateLimit, blockClient, hb, h2]
    · simp [checkRateLimit, hb]
  · cases hb : isBlockedAt s key now
    · by_cases h2 : s.config.maxRequests ≤
        (((lookupA s.clients key).getD (freshClient key)).requests.filter
          (fun t => now - t < s.config.windowMs)).length
      · simp [checkRateLimit, blockClient, hb, h2]
      · simp [checkRateLimit, blockClient, hb, h2]
    · simp [checkRateLimit, hb]
  · cases hb : isBlockedAt s key now
    · by_cases h2 : s.config.maxRequests ≤
        (((lookupA s.clients key).getD (freshClient key)).requests.filter
          (fun t => now - t < s.config.windowMs)).length
      · simp [checkRateLimit, blockClient, hb, h2]
      · simp [checkRateLimit, blockClient, hb, h2]
    · simp [checkRateLimit, hb]
  · unfold getRemainingRequests
    simp only [susp_clients, susp_config]
    cases lookupA s.clients key <;> rfl
  · unfold getTimeUntilReset
    simp only [susp_clients, susp_config]
    cases lookupA s.clients key with
    | none => rfl
    | some client => by_cases he : client.requests.isEmpty <;> simp [he]
  · cases hb : isBlockedAt s key now
    · by_cases h2 : s.config.maxRequests ≤
        (((lookupA s.clients key).getD (freshClient key)).requests.filter
          (fun t => now - t < s.config.windowMs)).length
      · right
        simp [checkRateLimit, blockClient, hb, h2]
      · left
        simp [checkRateLimit, hb, h2]
    · left
      simp [checkRateLimit, hb]

/-! ### Claim C10 -/

/-- Claim C10: `getRemainingRequests` and `getTimeUntilReset` never mutate
the limiter state — the client map (with each record's stored timestamp
list), the blocked set and the configuration are returned unchanged; in
particular these reads do not prune the stored record. -/
theorem c10_getters_no_mutation (s : LimiterState) (key : String)
    (now : Nat) :
    (getRemainingRequests s key now).2 = s ∧
    (getTimeUntilReset s key now).2 = s := by
  constructor
  · unfold getRemainingRequests
    cases lookupA s.clients key <;> rfl
  · unfold getTimeUntilReset
    cases lookupA s.clients key with
    | none => rfl
    | some client => by_cases he : client.requests.isEmpty <;> simp [he]

end QuadkernWeb
